import Mathlib

/-!
Verification of the transition-layer edit/parse/reconciliation logic of
`transition-content.tsx` (the `TransitionContent` component): its edit-buffer
state machine (`handleChange`, `handleComplete`, `handlePropertyUpdate`, and
the Escape/Blur/Enter key paths) together with models of the external
collaborators `parseTransition` and `toValue`.
-/

/-- A CSS unit value token, e.g. `200ms` (the `UnitValue` shape from the
css-engine: a numeric value plus a unit string). -/
structure UnitValue where
  value : Int
  unit : String
deriving DecidableEq, Repr

/-- A CSS keyword token, e.g. `opacity` or `ease` (the `KeywordValue` shape). -/
structure KeywordValue where
  value : String
deriving DecidableEq, Repr

/-- A token of a transition tuple: either a unit value or a keyword, the
`UnitValue | KeywordValue` union used for the tuple's `value` array. -/
inductive TransitionToken where
  | unitToken (u : UnitValue)
  | keywordToken (k : KeywordValue)
deriving DecidableEq, Repr

/-- The `ExtractedTransitionProperties` record: the four semantic fields of a
transition layer, each possibly absent. -/
structure ExtractedTransitionProperties where
  property : Option KeywordValue
  duration : Option UnitValue
  delay : Option UnitValue
  timing : Option KeywordValue
deriving DecidableEq, Repr

/-- The argument object passed to `handlePropertyUpdate` (typed
`ExtractedTransitionProperties` in the source). Each field models a JS object
key that is either absent (`none`), present but `undefined` (`some none`), or
present with a value (`some (some v)`); the distinction matters for the
object-spread merge. -/
structure TransitionFieldParams where
  property : Option (Option KeywordValue)
  duration : Option (Option UnitValue)
  delay : Option (Option UnitValue)
  timing : Option (Option KeywordValue)
deriving DecidableEq, Repr

/-- Modelled from the spec: the configured default timing-function keyword
(`defaultTransitionTimingFunction` from `transition-utils`, which is not under
`src/`); the spec calls it the "configured default" for the `timing` field. -/
def defaultTransitionTimingFunction : KeywordValue := { value := "ease" }

/-- Result of `parseTransition`: either the invalid marker or a list of
layers, each layer being the token list of its tuple. -/
inductive ParseResult where
  | invalid
  | layers (value : List (List TransitionToken))
deriving DecidableEq, Repr

/-- Split a character list at every occurrence of the separator `c`
(the pieces do not contain `c`; n separators yield n+1 pieces). -/
def splitOnChar (c : Char) : List Char → List (List Char)
  | [] => [[]]
  | x :: xs =>
    match splitOnChar c xs with
    | [] => if x = c then [[], [x]] else [[x]]
    | y :: ys => if x = c then [] :: y :: ys else (x :: y) :: ys

/-- Parse a non-empty all-digit character list as a decimal number. -/
def parseNatDigits (s : List Char) : Option Nat :=
  if s.isEmpty then none
  else if s.all Char.isDigit then
    some (s.foldl (fun n c => n * 10 + (c.toNat - 48)) 0)
  else none

/-- Render an integer as decimal text. -/
def intText (i : Int) : String :=
  match i with
  | Int.ofNat n => Nat.repr n
  | Int.negSucc n => "-" ++ Nat.repr (n + 1)

/-- Try to read a word as a CSS time token: digits followed by `ms` or `s`. -/
def parseTimeToken (w : List Char) : Option UnitValue :=
  match
    if ['m', 's'].isSuffixOf w then
      (parseNatDigits (w.take (w.length - 2))).map
        fun n => { value := Int.ofNat n, unit := "ms" }
    else none
  with
  | some u => some u
  | none =>
    if ['s'].isSuffixOf w then
      (parseNatDigits (w.take (w.length - 1))).map
        fun n => { value := Int.ofNat n, unit := "s" }
    else none

/-- Modelled from the spec: the set of easing-curve keywords recognised for
the `timing` field (keyword easing curves of the transition grammar). -/
def timingFunctionNames : List String :=
  ["ease", "linear", "ease-in", "ease-out", "ease-in-out",
   "step-start", "step-end"]

/-- Classify one word of a transition layer as a unit or keyword token. -/
def classifyWord (w : List Char) : TransitionToken :=
  match parseTimeToken w with
  | some u => TransitionToken.unitToken u
  | none => TransitionToken.keywordToken { value := String.mk w }

/-- Is this token a time (unit) token? -/
def isUnitTok : TransitionToken → Bool
  | TransitionToken.unitToken _ => true
  | TransitionToken.keywordToken _ => false

/-- Is this token a timing-function keyword token? -/
def isTimingTok : TransitionToken → Bool
  | TransitionToken.unitToken _ => false
  | TransitionToken.keywordToken k => timingFunctionNames.contains k.value

/-- Is this token a transition-property keyword token? -/
def isPropTok (t : TransitionToken) : Bool :=
  !isUnitTok t && !isTimingTok t

/-- Modelled from the spec: validity of one layer's token list under the
transition-layer grammar — 1 to 4 tokens, at most two time values
(duration and delay), at most one property keyword, at most one timing
keyword. -/
def layerValid (toks : List TransitionToken) : Bool :=
  if 1 ≤ toks.length ∧ toks.length ≤ 4 ∧
      (toks.filter isUnitTok).length ≤ 2 ∧
      (toks.filter isTimingTok).length ≤ 1 ∧
      (toks.filter isPropTok).length ≤ 1
  then true else false

/-- Modelled from the spec: `parseTransition` from the css-data package
(not under `src/`) — parse comma-separated layers of whitespace-separated
tokens, returning the tagged invalid marker on any malformed layer and never
throwing. It accepts the serializer's output on well-formed layers and
rejects text such as `not a transition`. -/
def parseTransition (text : String) : ParseResult :=
  let layers :=
    (splitOnChar ',' text.data).map fun ls =>
      ((splitOnChar ' ' ls).filter (fun w => !w.isEmpty)).map classifyWord
  if layers.all layerValid then ParseResult.layers layers else ParseResult.invalid

/-- Text of one transition token. -/
def TransitionToken.text : TransitionToken → String
  | TransitionToken.unitToken u => intText u.value ++ u.unit
  | TransitionToken.keywordToken k => k.value

/-- Join strings with single spaces. -/
def joinSpace : List String → String
  | [] => ""
  | [x] => x
  | x :: y :: ys => x ++ " " ++ joinSpace (y :: ys)

/-- Modelled from the spec: `toValue` from the css-engine (not under `src/`)
applied to a tuple value — the canonical serializer, rendering the tuple's
tokens separated by spaces. -/
def toValue (value : List TransitionToken) : String :=
  joinSpace (value.map TransitionToken.text)

/-- The component's edit buffer: the `IntermediateStyleValue | InvalidValue`
union held in the `intermediateValue` state (`{type:"intermediate"|"invalid",
value}`); `Unset` is the surrounding `Option` being `none`. -/
inductive EditBuffer where
  | intermediate (value : String)
  | invalid (value : String)
deriving DecidableEq, Repr

/-- The text carried by an edit buffer (its `value` field). -/
def EditBuffer.value : EditBuffer → String
  | EditBuffer.intermediate v => v
  | EditBuffer.invalid v => v

/-- The component-local state of `TransitionContent`: the `intermediateValue`
`useState` cell (`undefined` modelled as `none`). -/
structure ComponentState where
  intermediateValue : Option EditBuffer
deriving DecidableEq, Repr

/-- The commit options `StyleUpdateOptions`. -/
structure StyleUpdateOptions where
  isEphemeral : Bool
deriving DecidableEq, Repr

/-- One `onEditLayer(index, layers, options)` call observed as an effect. -/
structure EditCall where
  index : Nat
  layers : List (List TransitionToken)
  options : StyleUpdateOptions
deriving DecidableEq, Repr

/-- One `deleteTransitionLayer({index, options, ...})` call observed as an
effect (the `currentStyle`/`createBatchUpdate` plumbing carries no layer-local
information and is abstracted away). -/
structure DeleteCall where
  index : Nat
  options : StyleUpdateOptions
deriving DecidableEq, Repr

/-- The externally visible calls an operation makes. -/
structure Effects where
  edits : List EditCall
  deletes : List DeleteCall
deriving DecidableEq, Repr

/-- No external calls. -/
def noEffects : Effects := { edits := [], deletes := [] }

/-- `handleChange`: set the buffer to `{type:"intermediate", value}`
unconditionally; nothing is parsed and nothing is committed. -/
def handleChange (value : String) (_s : ComponentState) :
    ComponentState × Effects :=
  ({ intermediateValue := some (EditBuffer.intermediate value) }, noEffects)

/-- `handleComplete(options)`: return if the buffer is `undefined`; otherwise
parse the buffer's text — on failure store `{type:"invalid"}` with the same
text and return, on success call `onEditLayer(index, layers, options)` leaving
the state untouched. -/
def handleComplete (index : Nat) (options : StyleUpdateOptions)
    (s : ComponentState) : ComponentState × Effects :=
  match s.intermediateValue with
  | none => (s, noEffects)
  | some iv =>
    match parseTransition iv.value with
    | ParseResult.invalid =>
        ({ intermediateValue := some (EditBuffer.invalid iv.value) }, noEffects)
    | ParseResult.layers ls =>
        (s, { edits := [{ index := index, layers := ls, options := options }],
              deletes := [] })

/-- The object-spread merge `{...{property, duration, delay, timing},
...params}`: a params key that is present (even explicitly `undefined`)
replaces the current field, an absent key keeps it. -/
def mergeParams (current : ExtractedTransitionProperties)
    (params : TransitionFieldParams) : ExtractedTransitionProperties :=
  { property := params.property.getD current.property,
    duration := params.duration.getD current.duration,
    delay := params.delay.getD current.delay,
    timing := params.timing.getD current.timing }

/-- `Object.values({property, duration, delay, timing}).filter(item != null)`:
the merged fields in declaration order with the absent ones dropped — the
`value` array of the `newLayer` tuple. -/
def mergedTokens (fields : ExtractedTransitionProperties) :
    List TransitionToken :=
  [fields.property.map TransitionToken.keywordToken,
   fields.duration.map TransitionToken.unitToken,
   fields.delay.map TransitionToken.unitToken,
   fields.timing.map TransitionToken.keywordToken].filterMap id

/-- `handlePropertyUpdate(params, options = {isEphemeral: false})`: build the
merged tuple, serialize it, and parse the serialization — on failure store
`{type:"invalid"}` with that text and return; on success store
`{type:"intermediate"}` with that text and call `onEditLayer`. -/
def handlePropertyUpdate (current : ExtractedTransitionProperties)
    (params : TransitionFieldParams) (options : Option StyleUpdateOptions)
    (index : Nat) (_s : ComponentState) : ComponentState × Effects :=
  match parseTransition (toValue (mergedTokens (mergeParams current params))) with
  | ParseResult.invalid =>
      ({ intermediateValue :=
          some (EditBuffer.invalid
            (toValue (mergedTokens (mergeParams current params)))) },
       noEffects)
  | ParseResult.layers ls =>
      ({ intermediateValue :=
          some (EditBuffer.intermediate
            (toValue (mergedTokens (mergeParams current params)))) },
       { edits := [{ index := index, layers := ls,
                     options := options.getD { isEphemeral := false } }],
         deletes := [] })

/-- The Escape branch of the `onKeyDown` handler: return if the buffer is
`undefined`; otherwise call `deleteTransitionLayer` with this index and
`{isEphemeral: true}` and set the buffer to `undefined`. -/
def handleEscape (index : Nat) (s : ComponentState) :
    ComponentState × Effects :=
  match s.intermediateValue with
  | none => (s, noEffects)
  | some _ =>
      ({ intermediateValue := none },
       { edits := [],
         deletes := [{ index := index, options := { isEphemeral := true } }] })

/-- The `onBlur` handler: `handleComplete({isEphemeral: true})`. -/
def handleBlur (index : Nat) (s : ComponentState) : ComponentState × Effects :=
  handleComplete index { isEphemeral := true } s

/-- The Enter branch of `onKeyDown`: `handleComplete({isEphemeral: false})`. -/
def handleEnterKey (index : Nat) (s : ComponentState) :
    ComponentState × Effects :=
  handleComplete index { isEphemeral := false } s

/-- The duration `deleteProperty` callback:
`() => handlePropertyUpdate({ duration })` — the key is present holding the
current (possibly absent) duration, and no options argument is given. -/
def transitionDurationDelete (current : ExtractedTransitionProperties)
    (index : Nat) (s : ComponentState) : ComponentState × Effects :=
  handlePropertyUpdate current
    { property := none, duration := some current.duration,
      delay := none, timing := none } none index s

/-- The delay `deleteProperty` callback: `() => handlePropertyUpdate({ delay })`. -/
def transitionDelayDelete (current : ExtractedTransitionProperties)
    (index : Nat) (s : ComponentState) : ComponentState × Effects :=
  handlePropertyUpdate current
    { property := none, duration := none,
      delay := some current.delay, timing := none } none index s

/-- The TextArea's `value={intermediateValue?.value ?? ""}`. -/
def displayedValue (s : ComponentState) : String :=
  (s.intermediateValue.map EditBuffer.value).getD ""

/-- The TextArea's
`color={intermediateValue?.type === "invalid" ? "error" : undefined}`. -/
def textAreaColor (s : ComponentState) : Option String :=
  match s.intermediateValue with
  | some (EditBuffer.invalid _) => some "error"
  | _ => none

/-- Is the buffer in the invalid state? -/
def isInvalidBuffer (s : ComponentState) : Bool :=
  match s.intermediateValue with
  | some (EditBuffer.invalid _) => true
  | _ => false

/-- Run a sequence of `handleChange` text edits, accumulating effects. -/
def runTextEdits : List String → ComponentState → ComponentState × Effects
  | [], s => (s, noEffects)
  | t :: ts, s =>
    ((runTextEdits ts (handleChange t s).fst).fst,
     { edits := (handleChange t s).snd.edits ++
         (runTextEdits ts (handleChange t s).fst).snd.edits,
       deletes := (handleChange t s).snd.deletes ++
         (runTextEdits ts (handleChange t s).fst).snd.deletes })

/-- The tokens contributed by an optional keyword field. -/
def optKeywordTokens : Option KeywordValue → List TransitionToken
  | none => []
  | some k => [TransitionToken.keywordToken k]

/-- The tokens contributed by an optional unit field. -/
def optUnitTokens : Option UnitValue → List TransitionToken
  | none => []
  | some u => [TransitionToken.unitToken u]

/-- How many of the four fields are present. -/
def presentCount (f : ExtractedTransitionProperties) : Nat :=
  (if f.property.isSome then 1 else 0) + (if f.duration.isSome then 1 else 0) +
    (if f.delay.isSome then 1 else 0) + (if f.timing.isSome then 1 else 0)

theorem mergedTokens_length_eq (f : ExtractedTransitionProperties) :
    (mergedTokens f).length = presentCount f := by
  rcases f with ⟨p, d, dl, t⟩
  cases p <;> cases d <;> cases dl <;> cases t <;> rfl

/-- Claim C1 (amended): `handlePropertyUpdate` merges the params over the
current extracted fields — a provided field (even an explicitly cleared one)
replaces the current field, an unspecified field keeps the current value — and
the buffer is set to the serialization of the merged tuple, which encodes
exactly the fields present after the merge; fields still absent are omitted,
not substituted with defaults. -/
theorem fieldEdit_merge_semantics (current : ExtractedTransitionProperties)
    (params : TransitionFieldParams) (options : Option StyleUpdateOptions)
    (index : Nat) (s : ComponentState) :
    (mergeParams current params).property =
      (match params.property with
       | some v => v
       | none => current.property) ∧
    (mergeParams current params).duration =
      (match params.duration with
       | some v => v
       | none => current.duration) ∧
    (mergeParams current params).delay =
      (match params.delay with
       | some v => v
       | none => current.delay) ∧
    (mergeParams current params).timing =
      (match params.timing with
       | some v => v
       | none => current.timing) ∧
    ((handlePropertyUpdate current params options index s).fst.intermediateValue.map
        EditBuffer.value)
      = some (toValue (mergedTokens (mergeParams current params))) ∧
    (mergedTokens (mergeParams current params)).length =
      presentCount (mergeParams current params) := by
  refine ⟨?_, ?_, ?_, ?_, ?_, mergedTokens_length_eq _⟩
  · cases hp : params.property <;> simp [mergeParams, hp]
  · cases hp : params.duration <;> simp [mergeParams, hp]
  · cases hp : params.delay <;> simp [mergeParams, hp]
  · cases hp : params.timing <;> simp [mergeParams, hp]
  · cases hp :
      parseTransition (toValue (mergedTokens (mergeParams current params))) <;>
      simp [handlePropertyUpdate, hp, EditBuffer.value]

/-- Claim C1, counterexample to the claim as stated: with current fields
`{property: opacity, duration: 200ms}` and a field edit providing
`{delay: 50ms}`, the serialized tuple has only three fields — the absent
`timing` is NOT substituted with its configured default, so the serialized
text is `opacity 200ms 50ms` with no timing field. -/
theorem fieldEdit_default_substitution_counterexample :
    mergedTokens (mergeParams
        { property := some { value := "opacity" },
          duration := some { value := 200, unit := "ms" },
          delay := none, timing := none }
        { property := none, duration := none,
          delay := some (some { value := 50, unit := "ms" }), timing := none })
      = [TransitionToken.keywordToken { value := "opacity" },
         TransitionToken.unitToken { value := 200, unit := "ms" },
         TransitionToken.unitToken { value := 50, unit := "ms" }] ∧
    (mergedTokens (mergeParams
        { property := some { value := "opacity" },
          duration := some { value := 200, unit := "ms" },
          delay := none, timing := none }
        { property := none, duration := none,
          delay := some (some { value := 50, unit := "ms" }), timing := none })).length
      ≠ 4 ∧
    TransitionToken.keywordToken defaultTransitionTimingFunction ∉
      mergedTokens (mergeParams
        { property := some { value := "opacity" },
          duration := some { value := 200, unit := "ms" },
          delay := none, timing := none }
        { property := none, duration := none,
          delay := some (some { value := 50, unit := "ms" }), timing := none }) ∧
    (handlePropertyUpdate
        { property := some { value := "opacity" },
          duration := some { value := 200, unit := "ms" },
          delay := none, timing := none }
        { property := none, duration := none,
          delay := some (some { value := 50, unit := "ms" }), timing := none }
        none 0 { intermediateValue := none }).fst
      = { intermediateValue :=
            some (EditBuffer.intermediate "opacity 200ms 50ms") } := by
  refine ⟨by decide, by decide, by decide, by decide⟩

/-- Claim C2: whenever `parseTransition` returns the invalid marker — on the
buffer's text in `handleComplete`, or on the serialized merged tuple in
`handlePropertyUpdate` — the operation sets the buffer to the invalid state
holding exactly that text, makes no external calls, and changes nothing
else. -/
theorem parse_failure_atomic :
    (∀ (index : Nat) (options : StyleUpdateOptions) (s : ComponentState)
       (iv : EditBuffer),
      s.intermediateValue = some iv →
      parseTransition iv.value = ParseResult.invalid →
      handleComplete index options s =
        ({ intermediateValue := some (EditBuffer.invalid iv.value) },
         noEffects)) ∧
    (∀ (current : ExtractedTransitionProperties) (params : TransitionFieldParams)
       (options : Option StyleUpdateOptions) (index : Nat) (s : ComponentState),
      parseTransition (toValue (mergedTokens (mergeParams current params))) =
        ParseResult.invalid →
      handlePropertyUpdate current params options index s =
        ({ intermediateValue :=
            some (EditBuffer.invalid
              (toValue (mergedTokens (mergeParams current params)))) },
         noEffects)) := by
  constructor
  · intro index options s iv hs hp
    simp [handleComplete, hs, hp]
  · intro current params options index s hp
    simp [handlePropertyUpdate, hp]

theorem parse_failure_atomic_witness :
    handleComplete 0 { isEphemeral := true }
        { intermediateValue :=
            some (EditBuffer.intermediate "not a transition") } =
      ({ intermediateValue := some (EditBuffer.invalid "not a transition") },
       noEffects) ∧
    handlePropertyUpdate
        { property := some { value := "not a transition" },
          duration := none, delay := none, timing := none }
        { property := none, duration := none, delay := none, timing := none }
        none 0 { intermediateValue := none } =
      ({ intermediateValue := some (EditBuffer.invalid "not a transition") },
       noEffects) :=
  ⟨parse_failure_atomic.1 0 { isEphemeral := true } _
      (EditBuffer.intermediate "not a transition") rfl (by decide),
   parse_failure_atomic.2
      { property := some { value := "not a transition" },
        duration := none, delay := none, timing := none }
      { property := none, duration := none, delay := none, timing := none }
      none 0 { intermediateValue := none } (by decide)⟩

/-- Claim C3: `handleComplete` is a no-op when the buffer is unset; otherwise
it parses the buffer's text, and on success it calls `onEditLayer` with the
parsed layers, the layer index and the options, leaving the buffer exactly as
it was. -/
theorem commitRequest_noop_or_commit :
    (∀ (index : Nat) (options : StyleUpdateOptions),
      handleComplete index options { intermediateValue := none } =
        ({ intermediateValue := none }, noEffects)) ∧
    (∀ (index : Nat) (options : StyleUpdateOptions) (s : ComponentState)
       (iv : EditBuffer) (ls : List (List TransitionToken)),
      s.intermediateValue = some iv →
      parseTransition iv.value = ParseResult.layers ls →
      handleComplete index options s =
        (s, { edits := [{ index := index, layers := ls, options := options }],
              deletes := [] })) := by
  constructor
  · intro index options
    rfl
  · intro index options s iv ls hs hp
    simp [handleComplete, hs, hp]

theorem commitRequest_noop_or_commit_witness :
    handleComplete 1 { isEphemeral := false }
        { intermediateValue := some (EditBuffer.intermediate "opacity 200ms") } =
      ({ intermediateValue := some (EditBuffer.intermediate "opacity 200ms") },
       { edits :=
          [{ index := 1,
             layers := [[TransitionToken.keywordToken { value := "opacity" },
                         TransitionToken.unitToken { value := 200, unit := "ms" }]],
             options := { isEphemeral := false } }],
         deletes := [] }) :=
  commitRequest_noop_or_commit.2 1 { isEphemeral := false } _
    (EditBuffer.intermediate "opacity 200ms")
    [[TransitionToken.keywordToken { value := "opacity" },
      TransitionToken.unitToken { value := 200, unit := "ms" }]] rfl (by decide)

/-- Claim C4: `handleChange` sets the buffer to the intermediate state with
the new text, unconditionally and without parsing; consequently any sequence
of text edits makes no external calls, and the buffer is invalid afterwards
only in the vacuous case where the sequence was empty and it already was. -/
theorem textEdits_never_commit (ts : List String) (s : ComponentState) :
    (runTextEdits ts s).snd = noEffects ∧
    isInvalidBuffer (runTextEdits ts s).fst = (ts.isEmpty && isInvalidBuffer s) ∧
    (∀ (t : String) (s2 : ComponentState),
      handleChange t s2 =
        ({ intermediateValue := some (EditBuffer.intermediate t) },
         noEffects)) := by
  induction ts generalizing s with
  | nil =>
    exact ⟨rfl, by simp [runTextEdits], fun t s2 => rfl⟩
  | cons t ts ih =>
    refine ⟨?_, ?_, fun t2 s2 => rfl⟩
    · have h :=
        (ih { intermediateValue := some (EditBuffer.intermediate t) }).1
      simp [runTextEdits, handleChange, h, noEffects]
    · have h :=
        (ih { intermediateValue := some (EditBuffer.intermediate t) }).2.1
      simp [runTextEdits, handleChange]
      rw [h]
      simp [isInvalidBuffer]

/-- Claim C5: the Escape handler on a non-unset buffer makes exactly one
`deleteTransitionLayer` call for this layer's index and clears the buffer;
on an already-unset buffer it makes no call and changes nothing. -/
theorem escape_deletes_once_or_noop (index : Nat) (b : EditBuffer) :
    handleEscape index { intermediateValue := some b } =
      ({ intermediateValue := none },
       { edits := [],
         deletes := [{ index := index,
                       options := { isEphemeral := true } }] }) ∧
    handleEscape index { intermediateValue := none } =
      ({ intermediateValue := none }, noEffects) :=
  ⟨rfl, rfl⟩

/-- Claim C6: on a buffer whose text parses to layers, the blur path
(`handleComplete {isEphemeral:=true}`) and the Enter path
(`handleComplete {isEphemeral:=false}`) both commit the same parsed layers at
the same index and leave the state unchanged, differing only in the
`isEphemeral` flag passed through to `onEditLayer`. -/
theorem blur_enter_same_commit (index : Nat) (s : ComponentState)
    (iv : EditBuffer) (ls : List (List TransitionToken))
    (hs : s.intermediateValue = some iv)
    (hp : parseTransition iv.value = ParseResult.layers ls) :
    handleBlur index s =
      (s, { edits := [{ index := index, layers := ls,
                        options := { isEphemeral := true } }],
            deletes := [] }) ∧
    handleEnterKey index s =
      (s, { edits := [{ index := index, layers := ls,
                        options := { isEphemeral := false } }],
            deletes := [] }) := by
  constructor <;> simp [handleBlur, handleEnterKey, handleComplete, hs, hp]

theorem blur_enter_same_commit_witness :
    handleBlur 2
        { intermediateValue :=
            some (EditBuffer.intermediate "width 100ms 50ms ease") } =
      ({ intermediateValue :=
            some (EditBuffer.intermediate "width 100ms 50ms ease") },
       { edits :=
          [{ index := 2,
             layers :=
              [[TransitionToken.keywordToken { value := "width" },
                TransitionToken.unitToken { value := 100, unit := "ms" },
                TransitionToken.unitToken { value := 50, unit := "ms" },
                TransitionToken.keywordToken { value := "ease" }]],
             options := { isEphemeral := true } }],
         deletes := [] }) ∧
    handleEnterKey 2
        { intermediateValue :=
            some (EditBuffer.intermediate "width 100ms 50ms ease") } =
      ({ intermediateValue :=
            some (EditBuffer.intermediate "width 100ms 50ms ease") },
       { edits :=
          [{ index := 2,
             layers :=
              [[TransitionToken.keywordToken { value := "width" },
                TransitionToken.unitToken { value := 100, unit := "ms" },
                TransitionToken.unitToken { value := 50, unit := "ms" },
                TransitionToken.keywordToken { value := "ease" }]],
             options := { isEphemeral := false } }],
         deletes := [] }) :=
  blur_enter_same_commit 2 _ (EditBuffer.intermediate "width 100ms 50ms ease")
    [[TransitionToken.keywordToken { value := "width" },
      TransitionToken.unitToken { value := 100, unit := "ms" },
      TransitionToken.unitToken { value := 50, unit := "ms" },
      TransitionToken.keywordToken { value := "ease" }]] rfl (by decide)

/-- Claim C7: the tuple serialized by `handlePropertyUpdate` always lists the
fields in the fixed order property, duration, delay, timing, and only the
non-absent fields contribute a token. -/
theorem serialized_tuple_order (current : ExtractedTransitionProperties)
    (params : TransitionFieldParams) :
    mergedTokens (mergeParams current params) =
      optKeywordTokens (mergeParams current params).property ++
      optUnitTokens (mergeParams current params).duration ++
      optUnitTokens (mergeParams current params).delay ++
      optKeywordTokens (mergeParams current params).timing := by
  cases hf : mergeParams current params with
  | mk p d dl t => cases p <;> cases d <;> cases dl <;> cases t <;> rfl

/-- Claim C8: in every state the TextArea shows the buffer's text (or the
empty string when the buffer is unset), the error color is applied exactly
when the buffer is invalid, and a commit attempt never changes the displayed
text — the user's exact text survives invalid input. -/
theorem render_invariants (s : ComponentState) :
    displayedValue s =
      (match s.intermediateValue with
       | none => ""
       | some b => EditBuffer.value b) ∧
    textAreaColor s = (if isInvalidBuffer s then some "error" else none) ∧
    (∀ (index : Nat) (options : StyleUpdateOptions),
      displayedValue ((handleComplete index options s).fst) =
        displayedValue s) := by
  refine ⟨?_, ?_, ?_⟩
  · rcases s with ⟨_ | b⟩ <;> rfl
  · rcases s with ⟨_ | b⟩
    · rfl
    · cases b <;> rfl
  · intro index options
    rcases s with ⟨_ | b⟩
    · rfl
    · simp only [handleComplete, displayedValue]
      split <;> simp [EditBuffer.value]

/-- Claim C9: `handlePropertyUpdate` called without an options argument
behaves exactly as when called with `{isEphemeral := false}` — every commit it
then makes is final — and the duration/delay `deleteProperty` callbacks are
precisely such option-less calls. -/
theorem fieldEdit_defaults_final (current : ExtractedTransitionProperties)
    (params : TransitionFieldParams) (index : Nat) (s : ComponentState) :
    handlePropertyUpdate current params none index s =
      handlePropertyUpdate current params (some { isEphemeral := false })
        index s ∧
    ((handlePropertyUpdate current params none index s).snd.edits.all
      fun e => !e.options.isEphemeral) = true ∧
    transitionDurationDelete current index s =
      handlePropertyUpdate current
        { property := none, duration := some current.duration,
          delay := none, timing := none } none index s ∧
    transitionDelayDelete current index s =
      handlePropertyUpdate current
        { property := none, duration := none,
          delay := some current.delay, timing := none } none index s := by
  refine ⟨?_, ?_, rfl, rfl⟩
  · cases hp :
      parseTransition (toValue (mergedTokens (mergeParams current params))) <;>
      simp [handlePropertyUpdate, hp]
  · cases hp :
      parseTransition (toValue (mergedTokens (mergeParams current params))) <;>
      simp [handlePropertyUpdate, hp, noEffects]

/-- Claim C10: every `deleteTransitionLayer` call the Escape handler makes is
ephemeral, and on a non-unset buffer the one call made carries exactly
`{isEphemeral := true}` — a cancel deletion is never sent as a final
update. -/
theorem escape_always_ephemeral (index : Nat) (s : ComponentState)
    (b : EditBuffer) :
    ((handleEscape index s).snd.deletes.all
      fun d => d.options.isEphemeral) = true ∧
    ((handleEscape index { intermediateValue := some b }).snd.deletes.map
      fun d => d.options) = [{ isEphemeral := true }] := by
  refine ⟨?_, rfl⟩
  rcases s with ⟨_ | b2⟩ <;> rfl

theorem parseTransition_rejects_example :
    parseTransition "not a transition" = ParseResult.invalid := by decide

theorem parseTransition_accepts_serializer_example :
    parseTransition "opacity 200ms" =
      ParseResult.layers
        [[TransitionToken.keywordToken { value := "opacity" },
          TransitionToken.unitToken { value := 200, unit := "ms" }]] := by decide

theorem toValue_tuple_example :
    toValue
      [TransitionToken.keywordToken { value := "opacity" },
       TransitionToken.unitToken { value := 200, unit := "ms" },
       TransitionToken.unitToken { value := 50, unit := "ms" }] =
    "opacity 200ms 50ms" := by decide
